import Mathlib

/-!
Verification of the echollama orchestration demo against its specification.

The repository source holds the demo program (examples/echoself_demo.go).
The orchestration engine the demo calls is not part of the repository
source, so the engine operations are modelled from the specification; each
such definition is marked in its doc comment.  The demo program itself
(the main control flow and displayIntrospectionResults) is embedded
directly from the Go source file.
-/

namespace Echollama

attribute [local semireducible] Rat.mul Rat.add Rat.sub Rat.inv

/-- Agent state: context window, long-term memory entries,
last-interaction timestamp (spec section 3). -/
structure AgentState where
  context : List String
  memory : List String
  lastInteraction : Nat
  deriving Repr, DecidableEq

/-- Agent types supported by CreateSpecializedAgent. -/
inductive AgentType where
  | reflective
  | orchestrator
  | specialist
  deriving Repr, DecidableEq

/-- An agent: identity, display name, type, mutable state (spec section 3). -/
structure Agent where
  id : String
  name : String
  agentType : AgentType
  state : AgentState
  deriving Repr, DecidableEq

/-- Error taxonomy from spec section 7.  handlerError stands for an
arbitrary error value produced by an external tool or plugin handler. -/
inductive EngineError where
  | notFound (what : String)
  | duplicateName (name : String)
  | unsupportedAgentType
  | agentMismatch
  | timeoutExceeded
  | cancelled
  | pathNotFound
  | handlerError (msg : String)
  deriving Repr, DecidableEq

/-- Predicate picking out the NotFoundError kind of the taxonomy. -/
def EngineError.isNotFound : EngineError → Bool
  | .notFound _ => true
  | _ => false

/-- Task types dispatched by the execution engine (spec section 3). -/
inductive TaskType where
  | reflect
  | plugin
  | toolCall
  deriving Repr, DecidableEq

/-- Cognitive task types increment the thought counter on completion
(spec section 4.5: Reflect routes to the cognitive routine). -/
def TaskType.isCognitive : TaskType → Bool
  | .reflect => true
  | _ => false

/-- Task lifecycle states (spec section 3). -/
inductive TaskStatus where
  | pending
  | running
  | completed
  | failed
  deriving Repr, DecidableEq

/-- A task: typed unit of work targeted at one agent (spec section 3).
Parameters is the string-keyed parameter mapping. -/
structure Task where
  id : String
  type : TaskType
  input : String
  status : TaskStatus
  agentID : String
  parameters : List (String × String)
  deriving Repr, DecidableEq

/-- Result of one task execution (spec section 3). -/
structure TaskResult where
  taskID : String
  output : String
  error : Option EngineError
  deriving Repr, DecidableEq

/-- The process-wide cognitive state summary (spec section 3,
DeepTreeEchoState). -/
structure DeepTreeEchoState where
  systemHealth : String
  coreStatus : String
  thoughtCount : Nat
  recursiveDepth : Nat
  overallCoherence : ℚ
  memoryNodes : Nat
  connections : Nat
  currentStage : String
  deriving Repr, DecidableEq

/-- Parameter lookup in a task parameter mapping. -/
def lookupParam (ps : List (String × String)) (key : String) : Option String :=
  (ps.find? (fun p => p.1 == key)).map (fun p => p.2)

/-- A registry maps a name to an invocable handler: input text to
output text or an error (spec sections 4.1 and 6). -/
abbrev Registry := List (String × (String → Except EngineError String))

/-- Registry lookup by name; none models NotFoundError (spec section 4.1). -/
def Registry.lookup (reg : Registry) (name : String) :
    Option (String → Except EngineError String) :=
  (List.find? (fun p => p.1 == name) reg).map (fun p => p.2)

/-- Modelled from the spec: dispatch by task type (section 4.5; the
orchestration engine is not in the repository source).  Reflect routes
to the introspective-analysis routine of the cognitive state tracker;
Plugin looks up Parameters plugin_name in the plugin registry and fails
with NotFoundError when unregistered; ToolCall does the same with
tool_name over the tool registry. -/
def dispatch (plugins tools : Registry) (task : Task) :
    Except EngineError String :=
  match task.type with
  | .reflect => .ok ("Reflective analysis: " ++ task.input)
  | .plugin =>
      match lookupParam task.parameters "plugin_name" with
      | none => .error (.notFound "plugin_name")
      | some name =>
          match Registry.lookup plugins name with
          | none => .error (.notFound name)
          | some h => h task.input
  | .toolCall =>
      match lookupParam task.parameters "tool_name" with
      | none => .error (.notFound "tool_name")
      | some name =>
          match Registry.lookup tools name with
          | none => .error (.notFound name)
          | some h => h task.input

/-- Modelled from the spec: bounded context append with FIFO eviction of
the oldest entries once the configured capacity cap is exceeded
(section 4.5). -/
def boundedAppend (cap : Nat) (xs new : List String) : List String :=
  let ys := xs ++ new
  ys.drop (ys.length - cap)

/-- Outcome of one ExecuteTask call: final task status, the task result,
and the post-state of the agent and of the cognitive state. -/
structure TaskExec where
  status : TaskStatus
  result : TaskResult
  agent : Agent
  dte : DeepTreeEchoState

/-- Modelled from the spec: ExecuteTask (section 4.5; the orchestration
engine is not in the repository source).  Validates the task targets the
given agent (AgentMismatchError otherwise), dispatches by type, and on
success appends the input and output to the bounded agent context,
appends a derived memory entry, updates LastInteraction, and increments
ThoughtCount for cognitive task types.  On any failure the agent state
and cognitive state are left untouched (all-or-nothing mutation).  The
spec (section 8) requires every Completed result to carry non-empty
Output, so the model treats empty handler output as a handler failure. -/
def ExecuteTask (plugins tools : Registry) (cap : Nat) (now : Nat)
    (task : Task) (agent : Agent) (dte : DeepTreeEchoState) : TaskExec :=
  if task.agentID = agent.id then
    match dispatch plugins tools task with
    | .ok out =>
        if out = "" then
          { status := .failed,
            result := { taskID := task.id, output := "",
                        error := some (.handlerError "empty handler output") },
            agent := agent,
            dte := dte }
        else
          { status := .completed,
            result := { taskID := task.id, output := out, error := none },
            agent := { agent with state :=
              { context := boundedAppend cap agent.state.context [task.input, out],
                memory := agent.state.memory ++ ["task " ++ task.id ++ ": " ++ out],
                lastInteraction := now } },
            dte := if task.type.isCognitive then
                     { dte with thoughtCount := dte.thoughtCount + 1 }
                   else dte }
    | .error e =>
        { status := .failed,
          result := { taskID := task.id, output := "", error := some e },
          agent := agent,
          dte := dte }
  else
    { status := .failed,
      result := { taskID := task.id, output := "", error := some .agentMismatch },
      agent := agent,
      dte := dte }

/-- C1: for every valid (agent, task) pair, ExecuteTask yields exactly one
outcome: either a Completed result with non-empty Output and no error, or
a Failed result with a populated error — never both and never neither. -/
theorem executeTask_exactly_one_outcome (plugins tools : Registry)
    (cap now : Nat) (task : Task) (agent : Agent) (dte : DeepTreeEchoState) :
    Xor'
      ((ExecuteTask plugins tools cap now task agent dte).status = .completed ∧
        (ExecuteTask plugins tools cap now task agent dte).result.output ≠ "" ∧
        (ExecuteTask plugins tools cap now task agent dte).result.error = none)
      ((ExecuteTask plugins tools cap now task agent dte).status = .failed ∧
        ((ExecuteTask plugins tools cap now task agent dte).result.error).isSome = true) := by
  unfold ExecuteTask
  by_cases hid : task.agentID = agent.id
  · simp only [hid, if_true]
    cases hdisp : dispatch plugins tools task with
    | error e => simp [Xor']
    | ok out =>
        by_cases hout : out = ""
        · simp [hout, Xor']
        · simp [hout, Xor']
  · simp [hid, Xor']

/-- Length of a bounded append, for the context-growth bound. -/
theorem boundedAppend_length (cap : Nat) (xs new : List String) :
    (boundedAppend cap xs new).length =
      (xs.length + new.length) - ((xs.length + new.length) - cap) := by
  simp [boundedAppend]

/-- Sample agent used to instantiate theorems with hypotheses. -/
def sampleAgent : Agent :=
  { id := "agent-1", name := "deep-analysis", agentType := .reflective,
    state := { context := ["c0"], memory := ["m0"], lastInteraction := 0 } }

/-- Sample reflect task targeting the sample agent. -/
def sampleReflectTask : Task :=
  { id := "dte-deep-reflect-task", type := .reflect, input := "analyze",
    status := .pending, agentID := "agent-1", parameters := [] }

/-- Sample plugin task naming an unregistered plugin. -/
def samplePluginTask : Task :=
  { id := "dte-hypergraph-task", type := .plugin, input := "analyze structure",
    status := .pending, agentID := "agent-1",
    parameters := [("plugin_name", "nonexistent")] }

/-- Sample cognitive state. -/
def sampleDTE : DeepTreeEchoState :=
  { systemHealth := "healthy", coreStatus := "active", thoughtCount := 3,
    recursiveDepth := 1, overallCoherence := mkRat 1 2, memoryNodes := 2,
    connections := 1, currentStage := "growth" }

/-- C2: agent Context and Memory lengths are non-decreasing when the task
completes successfully, and the agent is completely unchanged when the
task fails (all-or-nothing mutation).  The capacity hypothesis is the
engine invariant that an agent context never exceeds the configured
bound. -/
theorem executeTask_all_or_nothing (plugins tools : Registry)
    (cap now : Nat) (task : Task) (agent : Agent) (dte : DeepTreeEchoState)
    (hcap : agent.state.context.length ≤ cap) :
    ((ExecuteTask plugins tools cap now task agent dte).status = .completed →
      agent.state.context.length ≤
        (ExecuteTask plugins tools cap now task agent dte).agent.state.context.length ∧
      agent.state.memory.length ≤
        (ExecuteTask plugins tools cap now task agent dte).agent.state.memory.length) ∧
    ((ExecuteTask plugins tools cap now task agent dte).status = .failed →
      (ExecuteTask plugins tools cap now task agent dte).agent = agent) := by
  unfold ExecuteTask
  by_cases hid : task.agentID = agent.id
  · simp only [hid, if_true]
    cases hdisp : dispatch plugins tools task with
    | error e => simp
    | ok out =>
        by_cases hout : out = ""
        · simp [hout]
        · simp only [hout, if_neg, if_false]
          constructor
          · intro _
            constructor
            · rw [boundedAppend_length]
              simp only [List.length_cons, List.length_nil]
              omega
            · simp
          · intro hcon
            simp at hcon
  · simp [hid]

/-- Witness instantiating the all-or-nothing theorem at the sample
reflect task. -/
theorem executeTask_all_or_nothing_witness :
    sampleAgent.state.context.length ≤ 8 ∧
    (((ExecuteTask [] [] 8 5 sampleReflectTask sampleAgent sampleDTE).status = .completed →
      sampleAgent.state.context.length ≤
        (ExecuteTask [] [] 8 5 sampleReflectTask sampleAgent sampleDTE).agent.state.context.length ∧
      sampleAgent.state.memory.length ≤
        (ExecuteTask [] [] 8 5 sampleReflectTask sampleAgent sampleDTE).agent.state.memory.length) ∧
    ((ExecuteTask [] [] 8 5 sampleReflectTask sampleAgent sampleDTE).status = .failed →
      (ExecuteTask [] [] 8 5 sampleReflectTask sampleAgent sampleDTE).agent = sampleAgent)) :=
  ⟨by decide,
   executeTask_all_or_nothing [] [] 8 5 sampleReflectTask sampleAgent sampleDTE (by decide)⟩

/-- C6: for a cognitive task type, ThoughtCount grows by exactly 1 when the
task reaches Completed and by exactly 0 when it reaches Failed, and
ThoughtCount is non-decreasing across every execution. -/
theorem executeTask_thoughtCount (plugins tools : Registry)
    (cap now : Nat) (task : Task) (agent : Agent) (dte : DeepTreeEchoState) :
    (task.type.isCognitive = true →
      (ExecuteTask plugins tools cap now task agent dte).dte.thoughtCount =
        dte.thoughtCount +
          (if (ExecuteTask plugins tools cap now task agent dte).status = .completed
           then 1 else 0)) ∧
    dte.thoughtCount ≤ (ExecuteTask plugins tools cap now task agent dte).dte.thoughtCount := by
  unfold ExecuteTask
  by_cases hid : task.agentID = agent.id
  · simp only [hid, if_true]
    cases hdisp : dispatch plugins tools task with
    | error e => simp
    | ok out =>
        by_cases hout : out = ""
        · simp [hout]
        · by_cases hcog : task.type.isCognitive = true
          · simp [hout, hcog]
          · simp [hout, hcog]
  · simp [hid]

/-- Witness instantiating the ThoughtCount theorem at the sample
cognitive task, where the increment is exactly 1. -/
theorem executeTask_thoughtCount_witness :
    (ExecuteTask [] [] 8 5 sampleReflectTask sampleAgent sampleDTE).dte.thoughtCount =
      sampleDTE.thoughtCount +
        (if (ExecuteTask [] [] 8 5 sampleReflectTask sampleAgent sampleDTE).status = .completed
         then 1 else 0) :=
  (executeTask_thoughtCount [] [] 8 5 sampleReflectTask sampleAgent sampleDTE).1 (by decide)

/-- C7: a valid Plugin task whose plugin_name parameter names an
unregistered plugin fails with an error of kind NotFoundError. -/
theorem executeTask_plugin_notFound (plugins tools : Registry)
    (cap now : Nat) (task : Task) (agent : Agent) (dte : DeepTreeEchoState)
    (name : String)
    (hid : task.agentID = agent.id)
    (htype : task.type = .plugin)
    (hparam : lookupParam task.parameters "plugin_name" = some name)
    (hreg : Registry.lookup plugins name = none) :
    (ExecuteTask plugins tools cap now task agent dte).status = .failed ∧
    ∃ e, (ExecuteTask plugins tools cap now task agent dte).result.error = some e ∧
      e.isNotFound = true := by
  have h1 : dispatch plugins tools task = .error (.notFound name) := by
    unfold dispatch
    rw [htype]
    simp [hparam, hreg]
  unfold ExecuteTask
  rw [if_pos hid, h1]
  exact ⟨rfl, .notFound name, rfl, rfl⟩

/-- Witness instantiating the plugin-not-found theorem at the sample
plugin task over an empty registry. -/
theorem executeTask_plugin_notFound_witness :
    (ExecuteTask [] [] 8 5 samplePluginTask sampleAgent sampleDTE).status = .failed ∧
    ∃ e, (ExecuteTask [] [] 8 5 samplePluginTask sampleAgent sampleDTE).result.error = some e ∧
      e.isNotFound = true :=
  executeTask_plugin_notFound [] [] 8 5 samplePluginTask sampleAgent sampleDTE
    "nonexistent" rfl rfl (by decide) rfl

/-- A file visited by introspection: its path, whether it was reachable
(permission-denied subpaths are recorded as skipped entries), and the two
scoring signals of spec section 4.3. -/
structure FileEntry where
  path : String
  accessible : Bool
  coherenceSignal : ℚ
  noveltySignal : ℚ
  deriving Repr, DecidableEq

/-- A scored salient file (spec section 3, CognitiveSnapshot). -/
structure SalientFile where
  path : String
  salience : ℚ
  deriving Repr, DecidableEq

/-- Modelled from the spec: the salience score is a weighted combination
of a structural or coherence signal scaled by coherenceWeight and a
novelty or freshness signal scaled by noveltyWeight (section 4.3 step 2).
The function is pure, hence deterministic and reproducible. -/
def salienceScore (coherenceWeight noveltyWeight : ℚ) (f : FileEntry) : ℚ :=
  coherenceWeight * f.coherenceSignal + noveltyWeight * f.noveltySignal

/-- Modelled from the spec: the attention threshold is derived dynamically
from the score distribution (section 4.3 step 3); the model uses the mean
score over the corpus, zero for an empty corpus. -/
def attentionThreshold (scores : List ℚ) : ℚ :=
  scores.sum / (scores.length : ℚ)

/-- Ranking order on salient files: descending by score, equal scores
broken by lexical path order (spec section 4.3 step 4). -/
def salientOrd (a b : SalientFile) : Prop :=
  b.salience < a.salience ∨ (a.salience = b.salience ∧ a.path ≤ b.path)

instance : DecidableRel salientOrd := fun a b =>
  inferInstanceAs (Decidable (b.salience < a.salience ∨
    (a.salience = b.salience ∧ a.path ≤ b.path)))

instance : IsTotal SalientFile salientOrd := by
  constructor
  intro a b
  rcases lt_trichotomy a.salience b.salience with h | h | h
  · exact Or.inr (Or.inl h)
  · rcases le_total a.path b.path with hp | hp
    · exact Or.inl (Or.inr ⟨h, hp⟩)
    · exact Or.inr (Or.inr ⟨h.symm, hp⟩)
  · exact Or.inl (Or.inl h)

instance : IsTrans SalientFile salientOrd := by
  constructor
  intro a b c hab hbc
  rcases hab with h1 | ⟨h1, hp1⟩
  · rcases hbc with h2 | ⟨h2, hp2⟩
    · exact Or.inl (h2.trans h1)
    · exact Or.inl (lt_of_eq_of_lt h2.symm h1)
  · rcases hbc with h2 | ⟨h2, hp2⟩
    · exact Or.inl (lt_of_lt_of_eq h2 h1.symm)
    · exact Or.inr ⟨h1.trans h2, hp1.trans hp2⟩

/-- Counts and ranked salient files of one introspection run (spec
section 3, CognitiveSnapshot). -/
structure CognitiveSnapshot where
  processedFiles : Nat
  filteredFiles : Nat
  attentionThreshold : ℚ
  salientFiles : List SalientFile
  deriving Repr, DecidableEq

/-- Memory-graph fold summary of an introspection run (spec section 3). -/
structure EchoIntegration where
  nodesCreated : Nat
  treeDepth : Nat
  deriving Repr, DecidableEq

/-- Full introspection output (spec section 3). -/
structure IntrospectionResult where
  cognitiveSnapshot : CognitiveSnapshot
  echoIntegration : EchoIntegration
  deriving Repr, DecidableEq

/-- Directory-nesting depth of a path: the number of separators. -/
def pathDepth (p : String) : Nat :=
  (p.toList.filter (fun c => c == '/')).length

/-- The processed files of a scan: every reachable file, scored (spec
section 4.3 steps 1 and 2). -/
def introspectScored (root : List FileEntry) (coherenceWeight noveltyWeight : ℚ) :
    List SalientFile :=
  (root.filter (fun f => f.accessible)).map
    (fun f => { path := f.path,
                salience := salienceScore coherenceWeight noveltyWeight f })

/-- The dynamic attention threshold of a scan (spec section 4.3 step 3). -/
def introspectThreshold (root : List FileEntry) (coherenceWeight noveltyWeight : ℚ) : ℚ :=
  attentionThreshold ((introspectScored root coherenceWeight noveltyWeight).map
    (fun s => s.salience))

/-- Modelled from the spec: Introspect (section 4.3; the engine is not in
the repository source).  The enumerated tree is given as a list of file
entries; skipped entries are excluded from processing.  Every processed
file is scored, files scoring below the dynamic attention threshold are
counted as filtered, and the remainder is ranked descending by score with
ties broken by lexical path order.  EchoIntegration counts the nodes
created from the salient set and the maximum nesting depth among salient
files (section 4.3 step 5). -/
def Introspect (root : List FileEntry) (coherenceWeight noveltyWeight : ℚ) :
    IntrospectionResult :=
  let scored := introspectScored root coherenceWeight noveltyWeight
  let threshold := introspectThreshold root coherenceWeight noveltyWeight
  let ranked := List.insertionSort salientOrd
    (scored.filter (fun s => decide (threshold ≤ s.salience)))
  { cognitiveSnapshot :=
      { processedFiles := scored.length,
        filteredFiles := (scored.filter (fun s => decide (s.salience < threshold))).length,
        attentionThreshold := threshold,
        salientFiles := ranked },
    echoIntegration :=
      { nodesCreated := ranked.length,
        treeDepth := (ranked.map (fun s => pathDepth s.path)).foldr max 0 } }

/-- Each scored file is counted exactly once: either below the threshold
or at or above it. -/
theorem length_filter_lt_add_filter_le (t : ℚ) (l : List SalientFile) :
    (l.filter (fun s => decide (s.salience < t))).length +
      (l.filter (fun s => decide (t ≤ s.salience))).length = l.length := by
  induction l with
  | nil => simp
  | cons a l ih =>
      by_cases h : a.salience < t
      · have h2 : ¬ t ≤ a.salience := not_le.mpr h
        simp [List.filter_cons, h, h2]
        omega
      · have h2 : t ≤ a.salience := not_lt.mp h
        simp [List.filter_cons, h, h2]
        omega

/-- C3: every file in SalientFiles scores at least the attention
threshold, and FilteredFiles plus the number of salient files equals
ProcessedFiles, skipped paths being excluded from processing. -/
theorem introspect_threshold_and_counts (root : List FileEntry)
    (coherenceWeight noveltyWeight : ℚ) :
    (∀ f ∈ (Introspect root coherenceWeight noveltyWeight).cognitiveSnapshot.salientFiles,
      (Introspect root coherenceWeight noveltyWeight).cognitiveSnapshot.attentionThreshold ≤
        f.salience) ∧
    (Introspect root coherenceWeight noveltyWeight).cognitiveSnapshot.filteredFiles +
      (Introspect root coherenceWeight noveltyWeight).cognitiveSnapshot.salientFiles.length =
      (Introspect root coherenceWeight noveltyWeight).cognitiveSnapshot.processedFiles := by
  constructor
  · intro f hf
    have h1 : f ∈ (introspectScored root coherenceWeight noveltyWeight).filter
        (fun s => decide (introspectThreshold root coherenceWeight noveltyWeight ≤ s.salience)) :=
      (List.mem_insertionSort salientOrd).mp hf
    exact of_decide_eq_true (List.mem_filter.mp h1).2
  · show ((introspectScored root coherenceWeight noveltyWeight).filter
        (fun s => decide (s.salience < introspectThreshold root coherenceWeight noveltyWeight))).length +
      (List.insertionSort salientOrd
        ((introspectScored root coherenceWeight noveltyWeight).filter
          (fun s => decide (introspectThreshold root coherenceWeight noveltyWeight ≤ s.salience)))).length =
      (introspectScored root coherenceWeight noveltyWeight).length
    rw [List.length_insertionSort]
    exact length_filter_lt_add_filter_le _ _

/-- Sample directory tree for witnesses, with one skipped entry. -/
def sampleTree : List FileEntry :=
  [ { path := "a/readme.md", accessible := true, coherenceSignal := 1, noveltySignal := 0 },
    { path := "a/b/core.go", accessible := true, coherenceSignal := mkRat 1 2, noveltySignal := 1 },
    { path := "secret", accessible := false, coherenceSignal := 1, noveltySignal := 1 },
    { path := "a/old.txt", accessible := true, coherenceSignal := 0, noveltySignal := mkRat 1 4 } ]

/-- The top salient file of the sample tree under weights 0.6 and 0.4. -/
def sampleSalient : SalientFile :=
  { path := "a/b/core.go", salience := mkRat 7 10 }

/-- Witness instantiating the threshold-and-counts theorem on the sample
tree: the sample salient file is in the output, scores at least the
threshold, and the counts add up. -/
theorem introspect_threshold_and_counts_witness :
    sampleSalient ∈ (Introspect sampleTree (mkRat 6 10) (mkRat 4 10)).cognitiveSnapshot.salientFiles ∧
    (Introspect sampleTree (mkRat 6 10) (mkRat 4 10)).cognitiveSnapshot.attentionThreshold ≤
      sampleSalient.salience ∧
    (Introspect sampleTree (mkRat 6 10) (mkRat 4 10)).cognitiveSnapshot.filteredFiles +
      (Introspect sampleTree (mkRat 6 10) (mkRat 4 10)).cognitiveSnapshot.salientFiles.length =
      (Introspect sampleTree (mkRat 6 10) (mkRat 4 10)).cognitiveSnapshot.processedFiles :=
  ⟨by decide,
   (introspect_threshold_and_counts sampleTree (mkRat 6 10) (mkRat 4 10)).1 sampleSalient (by decide),
   (introspect_threshold_and_counts sampleTree (mkRat 6 10) (mkRat 4 10)).2⟩

/-- C4: SalientFiles is sorted in descending order of salience score,
with equal scores broken by lexical order of path. -/
theorem introspect_salient_sorted (root : List FileEntry)
    (coherenceWeight noveltyWeight : ℚ) :
    List.Pairwise
      (fun a b => b.salience < a.salience ∨ (a.salience = b.salience ∧ a.path ≤ b.path))
      (Introspect root coherenceWeight noveltyWeight).cognitiveSnapshot.salientFiles := by
  have h := List.sorted_insertionSort salientOrd
    ((introspectScored root coherenceWeight noveltyWeight).filter
      (fun s => decide (introspectThreshold root coherenceWeight noveltyWeight ≤ s.salience)))
  exact h

/-- C5: the salience scoring function is deterministic (a pure function of
its arguments) and monotone in both weights: with non-negative signals,
raising either weight never lowers a score. -/
theorem salienceScore_monotone (f : FileEntry) (cw cw2 nw nw2 : ℚ)
    (hc : 0 ≤ f.coherenceSignal) (hn : 0 ≤ f.noveltySignal)
    (hcw : cw ≤ cw2) (hnw : nw ≤ nw2) :
    salienceScore cw nw f ≤ salienceScore cw2 nw2 f := by
  unfold salienceScore
  have h1 := mul_le_mul_of_nonneg_right hcw hc
  have h2 := mul_le_mul_of_nonneg_right hnw hn
  linarith

/-- Sample file used to instantiate the monotonicity theorem. -/
def sampleFile : FileEntry :=
  { path := "a/readme.md", accessible := true, coherenceSignal := 1, noveltySignal := mkRat 1 4 }

/-- Witness instantiating monotonicity of the salience score at a
concrete file and concrete weight increases. -/
theorem salienceScore_monotone_witness :
    (0 : ℚ) ≤ sampleFile.coherenceSignal ∧ (0 : ℚ) ≤ sampleFile.noveltySignal ∧
    (mkRat 6 10 : ℚ) ≤ mkRat 8 10 ∧ (mkRat 4 10 : ℚ) ≤ mkRat 1 2 ∧
    salienceScore (mkRat 6 10) (mkRat 4 10) sampleFile ≤ salienceScore (mkRat 8 10) (mkRat 1 2) sampleFile :=
  ⟨by decide, by decide, by decide, by decide,
   salienceScore_monotone sampleFile (mkRat 6 10) (mkRat 8 10) (mkRat 4 10) (mkRat 1 2)
     (by decide) (by decide) (by decide) (by decide)⟩

/-- Status of one diagnostic self-check (spec section 3). -/
inductive CheckStatus where
  | pass
  | warn
  | fail
  deriving Repr, DecidableEq

/-- Severity of a check status: fail is worst, then warn, then pass. -/
def CheckStatus.sev : CheckStatus → Nat
  | .pass => 0
  | .warn => 1
  | .fail => 2

/-- The worse of two check statuses under the severity order. -/
def worse (a b : CheckStatus) : CheckStatus :=
  if a.sev < b.sev then b else a

/-- One diagnostic test result (spec section 3, DiagnosticResult). -/
structure DiagTest where
  name : String
  status : CheckStatus
  message : String
  deriving Repr, DecidableEq

/-- Result of one diagnostics run (spec section 3). -/
structure DiagnosticResult where
  overallHealth : CheckStatus
  timestamp : Nat
  tests : List DiagTest
  deriving Repr, DecidableEq

/-- Modelled from the spec: the cognitive state right after Initialize,
with counters at baseline (section 4.4). -/
def freshDTE : DeepTreeEchoState :=
  { systemHealth := "initializing", coreStatus := "active", thoughtCount := 0,
    recursiveDepth := 0, overallCoherence := 1, memoryNodes := 0,
    connections := 0, currentStage := "baseline" }

/-- Modelled from the spec: RunDiagnostics executes a fixed battery of
self-checks (registry non-empty, at least one agent registered, cognitive
state fields within valid ranges); each check yields pass, warn or fail
independently and OverallHealth is the worst status among the checks
(section 4.4). -/
def RunDiagnostics (registryNames : List String) (agents : List Agent)
    (dte : DeepTreeEchoState) (now : Nat) : DiagnosticResult :=
  let tests : List DiagTest := [
    { name := "registry",
      status := if registryNames.isEmpty then .warn else .pass,
      message := "tool and plugin registry population" },
    { name := "agents",
      status := if agents.isEmpty then .warn else .pass,
      message := "at least one agent registered" },
    { name := "cognitive_state",
      status := if 0 ≤ dte.overallCoherence ∧ dte.overallCoherence ≤ 1
                then .pass else .fail,
      message := "identity coherence within valid range" } ]
  { overallHealth := tests.foldl (fun acc t => worse acc t.status) .pass,
    timestamp := now,
    tests := tests }

/-- The accumulator severity never decreases along the worst-status fold. -/
theorem sev_le_worse_left (a b : CheckStatus) : a.sev ≤ (worse a b).sev := by
  unfold worse
  split
  · omega
  · omega

/-- The folded-in status severity is bounded by the fold of the two. -/
theorem sev_le_worse_right (a b : CheckStatus) : b.sev ≤ (worse a b).sev := by
  unfold worse
  split
  · omega
  · omega

/-- The worst of two statuses is one of the two. -/
theorem worse_eq_left_or_right (a b : CheckStatus) :
    worse a b = a ∨ worse a b = b := by
  unfold worse
  split
  · exact Or.inr rfl
  · exact Or.inl rfl

/-- The seed severity is bounded by the worst-status fold. -/
theorem foldl_worse_le (l : List DiagTest) (a : CheckStatus) :
    a.sev ≤ (l.foldl (fun acc t => worse acc t.status) a).sev := by
  induction l generalizing a with
  | nil => simp
  | cons t l ih =>
      rw [List.foldl_cons]
      exact le_trans (sev_le_worse_left a t.status) (ih (worse a t.status))

/-- Every member severity is bounded by the worst-status fold. -/
theorem mem_sev_le_foldl (l : List DiagTest) (a : CheckStatus) (t : DiagTest)
    (ht : t ∈ l) :
    t.status.sev ≤ (l.foldl (fun acc s => worse acc s.status) a).sev := by
  induction l generalizing a with
  | nil => simp at ht
  | cons u l ih =>
      rw [List.foldl_cons]
      rcases List.mem_cons.mp ht with h | h
      · subst h
        exact le_trans (sev_le_worse_right a t.status) (foldl_worse_le l (worse a t.status))
      · exact ih (worse a u.status) h

/-- The worst-status fold is the seed or the status of some member. -/
theorem foldl_worse_mem (l : List DiagTest) (a : CheckStatus) :
    l.foldl (fun acc t => worse acc t.status) a = a ∨
      ∃ t ∈ l, t.status = l.foldl (fun acc t => worse acc t.status) a := by
  induction l generalizing a with
  | nil => exact Or.inl rfl
  | cons u l ih =>
      rw [List.foldl_cons]
      rcases ih (worse a u.status) with h | ⟨t, htl, hts⟩
      · rw [h]
        rcases worse_eq_left_or_right a u.status with h2 | h2
        · exact Or.inl h2
        · exact Or.inr ⟨u, List.mem_cons_self u l, h2.symm⟩
      · exact Or.inr ⟨t, List.mem_cons_of_mem u htl, hts⟩

/-- A status of severity zero is pass. -/
theorem sev_eq_zero_iff (s : CheckStatus) : s.sev = 0 ↔ s = .pass := by
  cases s <;> simp [CheckStatus.sev]

/-- C8: OverallHealth of a diagnostics run equals the worst status among
the individual test results under the severity order fail over warn over
pass, and on a freshly initialized engine with zero agents at least one
test reports warn. -/
theorem runDiagnostics_overall_worst (registryNames : List String)
    (agents : List Agent) (dte : DeepTreeEchoState) (now : Nat) :
    (∀ t ∈ (RunDiagnostics registryNames agents dte now).tests,
      t.status.sev ≤ (RunDiagnostics registryNames agents dte now).overallHealth.sev) ∧
    (∃ t ∈ (RunDiagnostics registryNames agents dte now).tests,
      t.status = (RunDiagnostics registryNames agents dte now).overallHealth) ∧
    (agents = [] →
      ∃ t ∈ (RunDiagnostics registryNames agents dte now).tests,
        t.status = .warn) := by
  refine ⟨?_, ?_, ?_⟩
  · intro t ht
    exact mem_sev_le_foldl (RunDiagnostics registryNames agents dte now).tests
      CheckStatus.pass t ht
  · rcases foldl_worse_mem (RunDiagnostics registryNames agents dte now).tests
        CheckStatus.pass with h | ⟨t, ht, hts⟩
    · refine ⟨{ name := "registry",
                status := if registryNames.isEmpty then .warn else .pass,
                message := "tool and plugin registry population" },
        List.mem_cons_self _ _, ?_⟩
      have h1 := mem_sev_le_foldl (RunDiagnostics registryNames agents dte now).tests
        CheckStatus.pass
        { name := "registry",
          status := if registryNames.isEmpty then .warn else .pass,
          message := "tool and plugin registry population" }
        (List.mem_cons_self _ _)
      have h2 : (RunDiagnostics registryNames agents dte now).overallHealth =
          CheckStatus.pass := h
      rw [h2]
      rw [← sev_eq_zero_iff]
      have h3 := h1
      rw [h] at h3
      simpa [CheckStatus.sev] using h3
    · exact ⟨t, ht, hts⟩
  · intro hag
    subst hag
    exact ⟨{ name := "agents", status := .warn,
             message := "at least one agent registered" },
      by simp [RunDiagnostics], rfl⟩

/-- Witness instantiating the diagnostics theorem on a freshly
initialized engine with empty registry and zero agents. -/
theorem runDiagnostics_overall_worst_witness :
    ∃ t ∈ (RunDiagnostics [] [] freshDTE 0).tests, t.status = .warn :=
  (runDiagnostics_overall_worst [] [] freshDTE 0).2.2 rfl

/-- The salient-file loop of displayIntrospectionResults, embedded from
echoself_demo.go lines 229 to 234: iterate with index i over
SalientFiles, break as soon as i reaches 5, and print the salience and
path of each visited file. -/
def salientLines : Nat → List SalientFile → List (ℚ × String)
  | _, [] => []
  | i, f :: fs =>
      if 5 ≤ i then []
      else (f.salience, f.path) :: salientLines (i + 1) fs

/-- The salient-file lines printed by displayIntrospectionResults,
embedded from echoself_demo.go lines 227 to 235: nothing when
SalientFiles is empty, otherwise the indexed loop started at 0. -/
def displayIntrospectionResults (r : IntrospectionResult) : List (ℚ × String) :=
  if r.cognitiveSnapshot.salientFiles.length > 0 then
    salientLines 0 r.cognitiveSnapshot.salientFiles
  else []

/-- The indexed loop equals a take of the remaining budget. -/
theorem salientLines_eq_take (xs : List SalientFile) (i : Nat) :
    salientLines i xs = (xs.take (5 - i)).map (fun f => (f.salience, f.path)) := by
  induction xs generalizing i with
  | nil => simp [salientLines]
  | cons f fs ih =>
      by_cases h : 5 ≤ i
      · simp [salientLines, h, Nat.sub_eq_zero_of_le h]
      · have h2 : 5 - i = (5 - (i + 1)) + 1 := by omega
        simp [salientLines, h, h2, ih]

/-- C10: displayIntrospectionResults prints at most 5 salient-file lines:
exactly the first min(5, len(SalientFiles)) entries of SalientFiles, in
sequence order. -/
theorem displayIntrospectionResults_take_five (r : IntrospectionResult) :
    displayIntrospectionResults r =
      (r.cognitiveSnapshot.salientFiles.take 5).map (fun f => (f.salience, f.path)) ∧
    (displayIntrospectionResults r).length =
      min 5 r.cognitiveSnapshot.salientFiles.length := by
  have h1 : displayIntrospectionResults r =
      (r.cognitiveSnapshot.salientFiles.take 5).map (fun f => (f.salience, f.path)) := by
    unfold displayIntrospectionResults
    by_cases hlen : r.cognitiveSnapshot.salientFiles.length > 0
    · simpa [hlen] using salientLines_eq_take r.cognitiveSnapshot.salientFiles 0
    · have hnil : r.cognitiveSnapshot.salientFiles = [] :=
        List.length_eq_zero.mp (by omega)
      simp [hlen, hnil]
  refine ⟨h1, ?_⟩
  rw [h1, List.length_map, List.length_take]

/-- Outcome of each engine call made by the demo main: none for success,
some error message for a failed call. -/
structure DemoOutcomes where
  initErr : Option String
  diagErr : Option String
  introErr : Option String
  reflectiveAgentErr : Option String
  orchestratorAgentErr : Option String
  specialistAgentErr : Option String
  reflectTaskErr : Option String
  pluginTaskErr : Option String
  refreshErr : Option String
  getAgentErr : Option String
  deriving Repr, DecidableEq

/-- How the demo process ends: a fatal log exit, or reaching the final
summary block. -/
inductive DemoExit where
  | fatal (msg : String)
  | summary
  deriving Repr, DecidableEq

/-- The demo main control flow, embedded from echoself_demo.go lines 38
to 179 over the outcomes of the engine calls it makes: initialization,
diagnostics, introspection, task and refresh and get-agent errors are
logged and execution continues; a failed CreateSpecializedAgent call
terminates the process through a fatal log. -/
def runDemo (o : DemoOutcomes) : List String × DemoExit :=
  let l1 := match o.initErr with
    | some e => ["Warning: Failed to initialize Deep Tree Echo: " ++ e]
    | none => ["Deep Tree Echo system initialized successfully"]
  let l2 := l1 ++ (match o.diagErr with
    | some e => ["Diagnostics failed: " ++ e]
    | none => ["diagnostics displayed"])
  let l3 := l2 ++ (match o.introErr with
    | some e => ["Introspection failed: " ++ e]
    | none => ["introspection results displayed"])
  match o.reflectiveAgentErr with
  | some e =>
      (l3 ++ ["Failed to create reflective agent: " ++ e],
       .fatal ("Failed to create reflective agent: " ++ e))
  | none =>
      let l4 := l3 ++ ["Created reflective agent"]
      match o.orchestratorAgentErr with
      | some e =>
          (l4 ++ ["Failed to create orchestrator agent: " ++ e],
           .fatal ("Failed to create orchestrator agent: " ++ e))
      | none =>
          let l5 := l4 ++ ["Created orchestrator agent"]
          match o.specialistAgentErr with
          | some e =>
              (l5 ++ ["Failed to create specialist agent: " ++ e],
               .fatal ("Failed to create specialist agent: " ++ e))
          | none =>
              let l6 := l5 ++ ["Created specialist agent"]
              let l7 := l6 ++ (match o.reflectTaskErr with
                | some e => ["Deep reflection task failed: " ++ e]
                | none => ["Deep reflection task completed"])
              let l8 := l7 ++ (match o.pluginTaskErr with
                | some e => ["Hypergraph analysis task failed: " ++ e]
                | none => ["Hypergraph analysis task completed"])
              let l9 := l8 ++ (match o.refreshErr with
                | some e => ["Failed to refresh status: " ++ e]
                | none => [])
              let l10 := l9 ++ (match o.getAgentErr with
                | some e => ["Failed to get agent: " ++ e]
                | none => ["agent state displayed"])
              (l10 ++ ["Deep Tree Echo Integration Summary"], .summary)

/-- C9: the demo terminates fatally exactly when one of the three
CreateSpecializedAgent calls returns an error; errors from every other
engine call it makes are logged and execution continues to the final
summary. -/
theorem runDemo_fatal_only_agent_creation (o : DemoOutcomes) :
    (runDemo o).2 = .summary ↔
      o.reflectiveAgentErr = none ∧ o.orchestratorAgentErr = none ∧
        o.specialistAgentErr = none := by
  obtain ⟨i, d, n, ra, oa, sa, t1, t2, rf, ga⟩ := o
  cases ra <;> cases oa <;> cases sa <;> simp [runDemo]

end Echollama
